import Mathlib

/-!
Shallow embedding of `aqara/device.py` (pyaqara): the device factory, the base
device contract and the four sensor variants, together with theorems checking
the natural-language specification against this code.

Python conventions modelled explicitly:
* exceptions are `Except PyErr`;
* payload mappings (`data`) are association lists from string keys to string
  values, looked up with `List.lookup`;
* Python `int(str)` is `pyInt` (optional sign followed by one or more
  decimal digits; anything else raises `ValueError`);
* Python floats are modelled by their exact rational values: `f64Nearest`
  is correct rounding to IEEE-754 binary64 (53-bit significand, round half
  to even), `pyTrueDiv` is Python's correctly rounded `int / int` true
  division, and `pyFloatRound1` is CPython's `round(x, 1)` (exact decimal
  rounding of the double's value, half to even, then back to the nearest
  double).
-/

/-- Python exceptions that the embedded code can raise. -/
inductive PyErr where
  | valueError
  | typeError
  | runtimeError (msg : String)
deriving DecidableEq, Repr

/-- An event payload: a mapping from string attribute names to string values. -/
abbrev Data := List (String × String)

/-- `true` exactly when an `Except` computation did not raise. -/
def exceptIsOk {α : Type} (e : Except PyErr α) : Bool :=
  match e with
  | .ok _ => true
  | .error _ => false

/-- Digits of a decimal numeral folded into a natural number. -/
def digitsVal (cs : List Char) : Nat :=
  cs.foldl (fun acc c => acc * 10 + (c.toNat - Char.toNat '0')) 0

/-- Model of Python `int(str_value)`: an optional leading sign followed by
one or more decimal digits; any other shape raises `ValueError`.  (Python
also strips surrounding whitespace and allows digit-group underscores; no
payload in the spec or the claims uses either, so they are not modelled.) -/
def pyInt (s : String) : Except PyErr Int :=
  let cs := s.toList
  let signed : Int × List Char :=
    match cs with
    | '+' :: rest => (1, rest)
    | '-' :: rest => (-1, rest)
    | _ => (1, cs)
  if !signed.2.isEmpty && signed.2.all Char.isDigit then
    .ok (signed.1 * (digitsVal signed.2 : Int))
  else
    .error .valueError

/-- Round the fraction `num / den` (with `den > 0`) to the nearest integer,
half to even — the rounding rule shared by IEEE-754 and Python's `round`.
`f` is the floor of the fraction and `r = num - f * den` its fractional
part scaled by `den`, so comparing `2 * r` against `den` compares the
fractional part against one half. -/
def pyRoundInt (num den : ℤ) : ℤ :=
  let f : ℤ := Int.fdiv num den
  let r : ℤ := num - f * den
  if 2 * r < den then f
  else if den < 2 * r then f + 1
  else if f % 2 = 0 then f else f + 1

/-- Exact rounding of a rational at one decimal place, half to even:
`10 * q` is passed to `pyRoundInt` as the fraction `(10 * q.num) / q.den`,
and the rounded tenths are divided back by ten.  (This is the decimal
rounding step inside CPython's `round(x, 1)`; see `pyFloatRound1`.) -/
def pyRound1 (q : ℚ) : ℚ :=
  Rat.divInt (pyRoundInt (10 * q.num) (q.den : ℤ)) 10

/-- Fuel-driven floor of the base-2 logarithm: `log2Aux fuel n` halves `n`
until it reaches 1, counting the steps; `fuel ≥ n` suffices. -/
def log2Aux : Nat → Nat → Nat
  | 0, _ => 0
  | fuel + 1, n => if n ≤ 1 then 0 else log2Aux fuel (n / 2) + 1

/-- `⌊log₂ n⌋` for `n ≥ 1` (and `0` at `0`), by structural recursion so that
it evaluates inside the kernel. -/
def natLog2 (n : Nat) : Nat := log2Aux n n

/-- Decides `2 ^ e ≤ q` for a positive rational `q` and an integer `e`,
by clearing denominators. -/
def ratPow2Le (e : ℤ) (q : ℚ) : Bool :=
  if 0 ≤ e then
    if (2 ^ e.toNat : ℤ) * (q.den : ℤ) ≤ q.num then true else false
  else
    if (q.den : ℤ) ≤ q.num * (2 ^ (-e).toNat : ℤ) then true else false

/-- `⌊log₂ q⌋` for a positive rational `q`: the numerator/denominator bit
lengths give the answer up to one, settled by one comparison. -/
def ratFloorLog2 (q : ℚ) : ℤ :=
  let e0 : ℤ := (natLog2 q.num.natAbs : ℤ) - (natLog2 q.den : ℤ)
  if ratPow2Le e0 q then e0 else e0 - 1

/-- The exact rational value of the IEEE-754 binary64 double nearest to `q`:
the significand is `q` scaled into `[2 ^ 52, 2 ^ 53]` and rounded half to
even (`pyRoundInt`), i.e. correct rounding at 53 significant bits.  The
exponent is not clamped: overflow to infinity (beyond about `1.8e308`,
where Python's `int / int` raises `OverflowError`) and subnormal precision
loss (below about `2.2e-308`) are outside every payload magnitude the spec
or the claims exercise, and are not modelled. -/
def f64Nearest (q : ℚ) : ℚ :=
  if q.num = 0 then 0
  else
    let aq : ℚ := Rat.divInt (q.num.natAbs : ℤ) (q.den : ℤ)
    let e : ℤ := ratFloorLog2 aq - 52
    let m : ℤ :=
      if 0 ≤ e then pyRoundInt aq.num ((aq.den : ℤ) * 2 ^ e.toNat)
      else pyRoundInt (aq.num * 2 ^ (-e).toNat) (aq.den : ℤ)
    let sm : ℤ := if q.num < 0 then -m else m
    if 0 ≤ e then Rat.divInt (sm * 2 ^ e.toNat) 1
    else Rat.divInt sm (2 ^ (-e).toNat)

/-- Python's true division `a / b` on ints: CPython produces the correctly
rounded double of the exact quotient, here `f64Nearest` of `a / b`. -/
def pyTrueDiv (a b : ℤ) : ℚ :=
  f64Nearest (Rat.divInt a b)

/-- Model of Python `round(x, 1)` on a float `x` (given by its exact
rational value): CPython rounds the exact decimal expansion of the double
half to even at one fractional digit (`pyRound1`) and returns the nearest
double to that decimal (`f64Nearest`). -/
def pyFloatRound1 (x : ℚ) : ℚ :=
  f64Nearest (pyRound1 x)

/-- Modelled from the spec: `aqara/const.py` is not among the sources; the
spec names the valid models `{HT, motion, contact, switch}`, so the device
type identifier `AQARA_DEVICE_HT` is modelled as the string `"HT"`. -/
def AQARA_DEVICE_HT : String := "HT"

/-- Modelled from the spec: `aqara/const.py` is not among the sources;
`AQARA_DEVICE_MOTION` is modelled as the spec's model name `"motion"`. -/
def AQARA_DEVICE_MOTION : String := "motion"

/-- Modelled from the spec: `aqara/const.py` is not among the sources;
`AQARA_DEVICE_MAGNET` (the contact sensor's model) is modelled as the spec's
model name `"contact"`. -/
def AQARA_DEVICE_MAGNET : String := "contact"

/-- Modelled from the spec: `aqara/const.py` is not among the sources;
`AQARA_DEVICE_SWITCH` is modelled as the spec's model name `"switch"`. -/
def AQARA_DEVICE_SWITCH : String := "switch"

/-- Modelled from the spec: the switch action codes of `aqara/const.py` are an
"action-code enum" with the four members named by the spec's fixed mapping. -/
inductive SwitchAction where
  | click
  | double_click
  | long_click_press
  | long_click_release
deriving DecidableEq, Repr

/-- Modelled from the spec: `AQARA_SWITCH_ACTION_CLICK` from `aqara/const.py`. -/
def AQARA_SWITCH_ACTION_CLICK : SwitchAction := .click

/-- Modelled from the spec: `AQARA_SWITCH_ACTION_DOUBLE_CLICK`. -/
def AQARA_SWITCH_ACTION_DOUBLE_CLICK : SwitchAction := .double_click

/-- Modelled from the spec: `AQARA_SWITCH_ACTION_LONG_CLICK_PRESS`. -/
def AQARA_SWITCH_ACTION_LONG_CLICK_PRESS : SwitchAction := .long_click_press

/-- Modelled from the spec: `AQARA_SWITCH_ACTION_LONG_CLICK_RELEASE`. -/
def AQARA_SWITCH_ACTION_LONG_CLICK_RELEASE : SwitchAction := .long_click_release

/-- `BUTTON_ACTION_MAP` from `device.py`: status string to action code. -/
def BUTTON_ACTION_MAP : List (String × SwitchAction) :=
  [("click", AQARA_SWITCH_ACTION_CLICK),
   ("double_click", AQARA_SWITCH_ACTION_DOUBLE_CLICK),
   ("long_click_press", AQARA_SWITCH_ACTION_LONG_CLICK_PRESS),
   ("long_click_release", AQARA_SWITCH_ACTION_LONG_CLICK_RELEASE)]

/-- Callback identities: registered update callbacks are modelled as opaque
tokens, so that which callback ran (and how often) is observable. -/
abbrev Callback := Nat

/-- State owned by `AqaraHTSensor`: `_temp` and `_humid` (exposed as the
`temperature` and `humidity` properties), both initialised to `0`. -/
structure HTState where
  temperature : ℚ
  humidity : ℚ
deriving DecidableEq, Repr

/-- State owned by `AqaraContactSensor`: `_triggered` and `_voltage`. -/
structure ContactState where
  triggered : Bool
  voltage : ℤ
deriving DecidableEq, Repr

/-- State owned by `AqaraMotionSensor`: `_triggered` and `_voltage`. -/
structure MotionState where
  triggered : Bool
  voltage : ℤ
deriving DecidableEq, Repr

/-- State owned by `AqaraSwitchSensor`: `_last_action` (initially `None`) and
`_voltage`. -/
structure SwitchState where
  last_action : Option SwitchAction
  voltage : ℤ
deriving DecidableEq, Repr

/-- The variant-specific part of a device, one constructor per subclass. -/
inductive SensorState where
  | ht (s : HTState)
  | contact (s : ContactState)
  | motion (s : MotionState)
  | switch (s : SwitchState)
deriving DecidableEq, Repr

/-- Fields set by `AqaraBaseDevice.__init__(self, gateway, model, sid)`,
plus the single optional update callback (initially `None`). -/
structure AqaraBaseDevice where
  gateway : String
  model : String
  sid : String
  update_callback : Option Callback
deriving DecidableEq, Repr

/-- A Python call to `AqaraBaseDevice.__init__` with an explicit positional
argument list.  The method declares three required parameters
`(gateway, model, sid)` after `self`; a call supplying any other number of
arguments raises `TypeError`, as in Python. -/
def AqaraBaseDevice.initCall (args : List String) : Except PyErr AqaraBaseDevice :=
  match args with
  | [gateway, model, sid] => .ok ⟨gateway, model, sid, none⟩
  | _ => .error .typeError

/-- A full device: the base-class fields plus the variant state. -/
structure Device where
  base : AqaraBaseDevice
  state : SensorState
deriving DecidableEq, Repr

namespace AqaraHTSensor

/-- `AqaraHTSensor.parse_value`: `round(int(str_value) / 100, 1)`, in float
arithmetic as the source computes it — the correctly rounded double
quotient `pyTrueDiv n 100`, then CPython's one-decimal float rounding
`pyFloatRound1`. -/
def parse_value (str_value : String) : Except PyErr ℚ :=
  match pyInt str_value with
  | .ok n => .ok (pyFloatRound1 (pyTrueDiv n 100))
  | .error e => .error e

/-- `AqaraHTSensor.do_update`: if `"temperature"` is present, store its parsed
value; then, if `"humidity"` is present, store its parsed value.  A parse
failure raises out of the hook. -/
def do_update (s : HTState) (data : Data) : Except PyErr HTState :=
  let step1 : Except PyErr HTState :=
    match data.lookup "temperature" with
    | some v =>
      match parse_value v with
      | .ok t => .ok { s with temperature := t }
      | .error e => .error e
    | none => .ok s
  match step1 with
  | .ok s1 =>
    match data.lookup "humidity" with
    | some v =>
      match parse_value v with
      | .ok h => .ok { s1 with humidity := h }
      | .error e => .error e
    | none => .ok s1
  | .error e => .error e

/-- `AqaraHTSensor.do_heartbeat`: heartbeat contains the same data as a
report, so it reuses `do_update`. -/
def do_heartbeat (s : HTState) (data : Data) : Except PyErr HTState :=
  do_update s data

end AqaraHTSensor

namespace AqaraContactSensor

/-- `AqaraContactSensor.do_update`: if `"status"` is present, set
`_triggered = (status == "open")`; otherwise leave the state untouched.
This hook cannot raise. -/
def do_update (s : ContactState) (data : Data) : ContactState :=
  match data.lookup "status" with
  | some status => { s with triggered := status == "open" }
  | none => s

/-- `AqaraContactSensor.do_heartbeat`: if `"voltage"` is present, store
`int(voltage)`; a parse failure raises out of the hook. -/
def do_heartbeat (s : ContactState) (data : Data) : Except PyErr ContactState :=
  match data.lookup "voltage" with
  | some v =>
    match pyInt v with
    | .ok n => .ok { s with voltage := n }
    | .error e => .error e
  | none => .ok s

end AqaraContactSensor

namespace AqaraMotionSensor

/-- `AqaraMotionSensor.do_update`: if `"status"` is present, set
`_triggered = (status == "motion")`; if absent, set `_triggered = False`.
This hook cannot raise. -/
def do_update (s : MotionState) (data : Data) : MotionState :=
  match data.lookup "status" with
  | some status => { s with triggered := status == "motion" }
  | none => { s with triggered := false }

/-- `AqaraMotionSensor.do_heartbeat`: same voltage handling as the contact
sensor. -/
def do_heartbeat (s : MotionState) (data : Data) : Except PyErr MotionState :=
  match data.lookup "voltage" with
  | some v =>
    match pyInt v with
    | .ok n => .ok { s with voltage := n }
    | .error e => .error e
  | none => .ok s

end AqaraMotionSensor

namespace AqaraSwitchSensor

/-- `AqaraSwitchSensor.do_update`: if `"status"` is present and found in
`BUTTON_ACTION_MAP`, store the mapped action code.  On an unrecognised
status the source runs `self.log_warning('invalid status: ' % status)`
(the message template uses a brace placeholder): applying `%` to a format
string with no `%`-conversion raises `TypeError` before any warning is
logged, so that branch raises. -/
def do_update (s : SwitchState) (data : Data) : Except PyErr SwitchState :=
  match data.lookup "status" with
  | some status =>
    match BUTTON_ACTION_MAP.lookup status with
    | some action => .ok { s with last_action := some action }
    | none => .error .typeError
  | none => .ok s

/-- `AqaraSwitchSensor.do_heartbeat`: same voltage handling as the contact
sensor. -/
def do_heartbeat (s : SwitchState) (data : Data) : Except PyErr SwitchState :=
  match data.lookup "voltage" with
  | some v =>
    match pyInt v with
    | .ok n => .ok { s with voltage := n }
    | .error e => .error e
  | none => .ok s

end AqaraSwitchSensor

namespace Device

/-- Dynamic dispatch of `do_update` over the four subclasses. -/
def do_update (d : Device) (data : Data) : Except PyErr Device :=
  match d.state with
  | .ht s =>
    match AqaraHTSensor.do_update s data with
    | .ok s1 => .ok { d with state := .ht s1 }
    | .error e => .error e
  | .contact s => .ok { d with state := .contact (AqaraContactSensor.do_update s data) }
  | .motion s => .ok { d with state := .motion (AqaraMotionSensor.do_update s data) }
  | .switch s =>
    match AqaraSwitchSensor.do_update s data with
    | .ok s1 => .ok { d with state := .switch s1 }
    | .error e => .error e

/-- Dynamic dispatch of `do_heartbeat` over the four subclasses. -/
def do_heartbeat (d : Device) (data : Data) : Except PyErr Device :=
  match d.state with
  | .ht s =>
    match AqaraHTSensor.do_heartbeat s data with
    | .ok s1 => .ok { d with state := .ht s1 }
    | .error e => .error e
  | .contact s =>
    match AqaraContactSensor.do_heartbeat s data with
    | .ok s1 => .ok { d with state := .contact s1 }
    | .error e => .error e
  | .motion s =>
    match AqaraMotionSensor.do_heartbeat s data with
    | .ok s1 => .ok { d with state := .motion s1 }
    | .error e => .error e
  | .switch s =>
    match AqaraSwitchSensor.do_heartbeat s data with
    | .ok s1 => .ok { d with state := .switch s1 }
    | .error e => .error e

/-- `AqaraBaseDevice.set_update_callback`: overwrite the single callback slot. -/
def set_update_callback (d : Device) (update_callback : Callback) : Device :=
  { d with base := { d.base with update_callback := some update_callback } }

/-- `AqaraBaseDevice.on_update`: run the variant's `do_update` hook, then
invoke the registered callback if there is one.  The second component of the
result lists the callbacks invoked, in order. -/
def on_update (d : Device) (data : Data) : Except PyErr (Device × List Callback) :=
  match d.do_update data with
  | .ok d1 =>
    match d1.base.update_callback with
    | some cb => .ok (d1, [cb])
    | none => .ok (d1, [])
  | .error e => .error e

/-- `AqaraBaseDevice.on_heartbeat`: run the variant's `do_heartbeat` hook,
then invoke the registered callback if there is one. -/
def on_heartbeat (d : Device) (data : Data) : Except PyErr (Device × List Callback) :=
  match d.do_heartbeat data with
  | .ok d1 =>
    match d1.base.update_callback with
    | some cb => .ok (d1, [cb])
    | none => .ok (d1, [])
  | .error e => .error e

end Device

/-- `AqaraHTSensor.__init__(self, sid)`: runs
`super().__init__(AQARA_DEVICE_HT, sid)`, a call passing two positional
arguments to the three-parameter `AqaraBaseDevice.__init__`, then initialises
`_temp = 0` and `_humid = 0`. -/
def AqaraHTSensor.init (sid : String) : Except PyErr Device :=
  match AqaraBaseDevice.initCall [AQARA_DEVICE_HT, sid] with
  | .ok b => .ok ⟨b, .ht ⟨0, 0⟩⟩
  | .error e => .error e

/-- `AqaraContactSensor.__init__(self, sid)`: runs
`super().__init__(AQARA_DEVICE_MAGNET, sid)` (two positional arguments), then
initialises `_triggered = False` and `_voltage = 0`. -/
def AqaraContactSensor.init (sid : String) : Except PyErr Device :=
  match AqaraBaseDevice.initCall [AQARA_DEVICE_MAGNET, sid] with
  | .ok b => .ok ⟨b, .contact ⟨false, 0⟩⟩
  | .error e => .error e

/-- `AqaraMotionSensor.__init__(self, sid)`: runs
`super().__init__(AQARA_DEVICE_MOTION, sid)` (two positional arguments), then
initialises `_triggered = False` and `_voltage = 0`. -/
def AqaraMotionSensor.init (sid : String) : Except PyErr Device :=
  match AqaraBaseDevice.initCall [AQARA_DEVICE_MOTION, sid] with
  | .ok b => .ok ⟨b, .motion ⟨false, 0⟩⟩
  | .error e => .error e

/-- `AqaraSwitchSensor.__init__(self, sid)`: runs
`super().__init__(AQARA_DEVICE_SWITCH, sid)` (two positional arguments), then
initialises `_last_action = None` and `_voltage = 0`. -/
def AqaraSwitchSensor.init (sid : String) : Except PyErr Device :=
  match AqaraBaseDevice.initCall [AQARA_DEVICE_SWITCH, sid] with
  | .ok b => .ok ⟨b, .switch ⟨none, 0⟩⟩
  | .error e => .error e

/-- `create_device(model, sid)`: the device factory; an unrecognised model
raises `RuntimeError('Unsupported device type: ...')` with the model and sid
formatted into the message. -/
def create_device (model sid : String) : Except PyErr Device :=
  if model = AQARA_DEVICE_HT then AqaraHTSensor.init sid
  else if model = AQARA_DEVICE_MOTION then AqaraMotionSensor.init sid
  else if model = AQARA_DEVICE_MAGNET then AqaraContactSensor.init sid
  else if model = AQARA_DEVICE_SWITCH then AqaraSwitchSensor.init sid
  else .error (.runtimeError ("Unsupported device type: " ++ model ++ " [" ++ sid ++ "]"))

/-- A value at an optional payload key parses as a Python int whenever the
key is present. -/
def intFieldOk (o : Option String) : Bool :=
  match o with
  | some v => exceptIsOk (pyInt v)
  | none => true

/-- Payload condition under which a variant's `do_update` hook raises
nothing: present HT numeric fields parse as ints, and a present switch
status is one of the recognised action names. -/
def updatePayloadOk (d : Device) (data : Data) : Bool :=
  match d.state with
  | .ht _ => intFieldOk (data.lookup "temperature") && intFieldOk (data.lookup "humidity")
  | .contact _ => true
  | .motion _ => true
  | .switch _ =>
    match data.lookup "status" with
    | some status => (BUTTON_ACTION_MAP.lookup status).isSome
    | none => true

/-- Payload condition under which a variant's `do_heartbeat` hook raises
nothing: a present voltage field (for HT: temperature/humidity fields)
parses as an int. -/
def heartbeatPayloadOk (d : Device) (data : Data) : Bool :=
  match d.state with
  | .ht _ => intFieldOk (data.lookup "temperature") && intFieldOk (data.lookup "humidity")
  | _ => intFieldOk (data.lookup "voltage")

/-- A concrete contact sensor with callback `7` registered, used to
instantiate universally quantified theorems. -/
def contactDev : Device :=
  ⟨⟨"gw", AQARA_DEVICE_MAGNET, "sid1", some 7⟩, .contact ⟨false, 0⟩⟩

/-- A concrete motion sensor with no callback registered, used to
instantiate universally quantified theorems. -/
def motionDev : Device :=
  ⟨⟨"gw", AQARA_DEVICE_MOTION, "sid2", none⟩, .motion ⟨false, 0⟩⟩

/-- A concrete switch sensor with no callback registered, used to
instantiate universally quantified theorems. -/
def switchDev : Device :=
  ⟨⟨"gw", AQARA_DEVICE_SWITCH, "sid3", none⟩, .switch ⟨none, 0⟩⟩

/-!
## Theorems

Helper lemmas first, then one theorem per specification claim.
-/
theorem AqaraHTSensor.parse_value_ok (v : String) (h : exceptIsOk (pyInt v) = true) :
    ∃ q, AqaraHTSensor.parse_value v = .ok q := by
  cases hp : pyInt v with
  | ok n => exact ⟨pyFloatRound1 (pyTrueDiv n 100), by simp [AqaraHTSensor.parse_value, hp]⟩
  | error e => rw [hp] at h; simp [exceptIsOk] at h

theorem ht_do_update_ok (s : HTState) (data : Data)
    (h1 : intFieldOk (data.lookup "temperature") = true)
    (h2 : intFieldOk (data.lookup "humidity") = true) :
    exceptIsOk (AqaraHTSensor.do_update s data) = true := by
  cases ht : data.lookup "temperature" with
  | none =>
    cases hh : data.lookup "humidity" with
    | none => simp [AqaraHTSensor.do_update, ht, hh, exceptIsOk]
    | some w =>
      rw [hh] at h2
      obtain ⟨q, hq⟩ := AqaraHTSensor.parse_value_ok w h2
      simp [AqaraHTSensor.do_update, ht, hh, hq, exceptIsOk]
  | some v =>
    rw [ht] at h1
    obtain ⟨q, hq⟩ := AqaraHTSensor.parse_value_ok v h1
    cases hh : data.lookup "humidity" with
    | none => simp [AqaraHTSensor.do_update, ht, hh, hq, exceptIsOk]
    | some w =>
      rw [hh] at h2
      obtain ⟨q2, hq2⟩ := AqaraHTSensor.parse_value_ok w h2
      simp [AqaraHTSensor.do_update, ht, hh, hq, hq2, exceptIsOk]

theorem contact_do_heartbeat_ok (s : ContactState) (data : Data)
    (h : intFieldOk (data.lookup "voltage") = true) :
    exceptIsOk (AqaraContactSensor.do_heartbeat s data) = true := by
  cases hv : data.lookup "voltage" with
  | none => simp [AqaraContactSensor.do_heartbeat, hv, exceptIsOk]
  | some v =>
    rw [hv] at h
    cases hp : pyInt v with
    | ok n => simp [AqaraContactSensor.do_heartbeat, hv, hp, exceptIsOk]
    | error e => rw [intFieldOk, hp] at h; simp [exceptIsOk] at h

theorem motion_do_heartbeat_ok (s : MotionState) (data : Data)
    (h : intFieldOk (data.lookup "voltage") = true) :
    exceptIsOk (AqaraMotionSensor.do_heartbeat s data) = true := by
  cases hv : data.lookup "voltage" with
  | none => simp [AqaraMotionSensor.do_heartbeat, hv, exceptIsOk]
  | some v =>
    rw [hv] at h
    cases hp : pyInt v with
    | ok n => simp [AqaraMotionSensor.do_heartbeat, hv, hp, exceptIsOk]
    | error e => rw [intFieldOk, hp] at h; simp [exceptIsOk] at h

theorem switch_do_heartbeat_ok (s : SwitchState) (data : Data)
    (h : intFieldOk (data.lookup "voltage") = true) :
    exceptIsOk (AqaraSwitchSensor.do_heartbeat s data) = true := by
  cases hv : data.lookup "voltage" with
  | none => simp [AqaraSwitchSensor.do_heartbeat, hv, exceptIsOk]
  | some v =>
    rw [hv] at h
    cases hp : pyInt v with
    | ok n => simp [AqaraSwitchSensor.do_heartbeat, hv, hp, exceptIsOk]
    | error e => rw [intFieldOk, hp] at h; simp [exceptIsOk] at h

theorem switch_do_update_ok (s : SwitchState) (data : Data)
    (h : (match data.lookup "status" with
          | some status => (BUTTON_ACTION_MAP.lookup status).isSome
          | none => true) = true) :
    exceptIsOk (AqaraSwitchSensor.do_update s data) = true := by
  cases hs : data.lookup "status" with
  | none => simp [AqaraSwitchSensor.do_update, hs, exceptIsOk]
  | some status =>
    rw [hs] at h
    simp only [Option.isSome] at h
    cases hm : BUTTON_ACTION_MAP.lookup status with
    | some action => simp [AqaraSwitchSensor.do_update, hs, hm, exceptIsOk]
    | none => rw [hm] at h; simp at h

theorem Device.do_update_preserves_base (d : Device) (data : Data) (d1 : Device)
    (h : d.do_update data = .ok d1) : d1.base = d.base := by
  obtain ⟨b, st⟩ := d
  cases st with
  | ht s =>
    cases hr : AqaraHTSensor.do_update s data with
    | ok s1 =>
      simp only [Device.do_update, hr] at h
      injection h with h1
      rw [← h1]
    | error e => simp only [Device.do_update, hr] at h; exact Except.noConfusion h
  | contact s =>
    simp only [Device.do_update] at h
    injection h with h1
    rw [← h1]
  | motion s =>
    simp only [Device.do_update] at h
    injection h with h1
    rw [← h1]
  | switch s =>
    cases hr : AqaraSwitchSensor.do_update s data with
    | ok s1 =>
      simp only [Device.do_update, hr] at h
      injection h with h1
      rw [← h1]
    | error e => simp only [Device.do_update, hr] at h; exact Except.noConfusion h

theorem Device.do_heartbeat_preserves_base (d : Device) (data : Data) (d1 : Device)
    (h : d.do_heartbeat data = .ok d1) : d1.base = d.base := by
  obtain ⟨b, st⟩ := d
  cases st with
  | ht s =>
    cases hr : AqaraHTSensor.do_heartbeat s data with
    | ok s1 =>
      simp only [Device.do_heartbeat, hr] at h
      injection h with h1
      rw [← h1]
    | error e => simp only [Device.do_heartbeat, hr] at h; exact Except.noConfusion h
  | contact s =>
    cases hr : AqaraContactSensor.do_heartbeat s data with
    | ok s1 =>
      simp only [Device.do_heartbeat, hr] at h
      injection h with h1
      rw [← h1]
    | error e => simp only [Device.do_heartbeat, hr] at h; exact Except.noConfusion h
  | motion s =>
    cases hr : AqaraMotionSensor.do_heartbeat s data with
    | ok s1 =>
      simp only [Device.do_heartbeat, hr] at h
      injection h with h1
      rw [← h1]
    | error e => simp only [Device.do_heartbeat, hr] at h; exact Except.noConfusion h
  | switch s =>
    cases hr : AqaraSwitchSensor.do_heartbeat s data with
    | ok s1 =>
      simp only [Device.do_heartbeat, hr] at h
      injection h with h1
      rw [← h1]
    | error e => simp only [Device.do_heartbeat, hr] at h; exact Except.noConfusion h

theorem Device.on_update_trace (d : Device) (data : Data) (r : Device × List Callback)
    (h : d.on_update data = .ok r) : r.2 = d.base.update_callback.toList := by
  cases hu : d.do_update data with
  | error e => simp only [Device.on_update, hu] at h; exact Except.noConfusion h
  | ok d1 =>
    have hb := Device.do_update_preserves_base d data d1 hu
    simp only [Device.on_update, hu] at h
    cases hcb : d1.base.update_callback with
    | some cb =>
      rw [hcb] at h
      injection h with h1
      rw [← h1, ← hb, hcb]
      rfl
    | none =>
      rw [hcb] at h
      injection h with h1
      rw [← h1, ← hb, hcb]
      rfl

theorem Device.on_heartbeat_trace (d : Device) (data : Data) (r : Device × List Callback)
    (h : d.on_heartbeat data = .ok r) : r.2 = d.base.update_callback.toList := by
  cases hu : d.do_heartbeat data with
  | error e => simp only [Device.on_heartbeat, hu] at h; exact Except.noConfusion h
  | ok d1 =>
    have hb := Device.do_heartbeat_preserves_base d data d1 hu
    simp only [Device.on_heartbeat, hu] at h
    cases hcb : d1.base.update_callback with
    | some cb =>
      rw [hcb] at h
      injection h with h1
      rw [← h1, ← hb, hcb]
      rfl
    | none =>
      rw [hcb] at h
      injection h with h1
      rw [← h1, ← hb, hcb]
      rfl

/-- C1 (code evaluation at the failing inputs): the claim says that for every
valid model identifier and every sid, `create_device` returns a device whose
`sid` and `model` accessors yield the arguments.  Instead, for every valid
model and every sid the factory raises `TypeError`: each subclass
`__init__` passes two positional arguments to the three-parameter
`AqaraBaseDevice.__init__(self, gateway, model, sid)`. -/
theorem create_device_valid_model_raises (sid : String) :
    create_device AQARA_DEVICE_HT sid = .error .typeError ∧
    create_device AQARA_DEVICE_MOTION sid = .error .typeError ∧
    create_device AQARA_DEVICE_MAGNET sid = .error .typeError ∧
    create_device AQARA_DEVICE_SWITCH sid = .error .typeError :=
  ⟨rfl, rfl, rfl, rfl⟩

/-- C2 counterexample: the claim says no exception escapes the variant
parsing hooks for malformed payload content, but the HT variant's
`do_update` on the payload mapping temperature to the non-numeric string
"abc" raises `ValueError` out of the hook (from `int("abc")`). -/
theorem ht_update_malformed_temperature_raises :
    Device.do_update ⟨⟨"gw", AQARA_DEVICE_HT, "sid1", none⟩, .ht ⟨0, 0⟩⟩
      [("temperature", "abc")] = .error .valueError := rfl

/-- C2 amended: the parsing hooks raise no exception on well-formed
payloads — present HT temperature/humidity values that parse as ints, a
present switch status that is a recognised action name, and present
voltage values that parse as ints; for malformed field values the hooks do
raise (`ValueError` from `int`, and `TypeError` on an unrecognised switch
status). -/
theorem variant_hooks_ok_on_wellformed_payloads (d : Device) (data : Data) :
    (updatePayloadOk d data = true → exceptIsOk (d.do_update data) = true) ∧
    (heartbeatPayloadOk d data = true → exceptIsOk (d.do_heartbeat data) = true) := by
  obtain ⟨b, st⟩ := d
  cases st with
  | ht s =>
    constructor
    · intro h
      simp only [updatePayloadOk, Bool.and_eq_true] at h
      have := ht_do_update_ok s data h.1 h.2
      cases hr : AqaraHTSensor.do_update s data with
      | ok s1 => simp [Device.do_update, hr, exceptIsOk]
      | error e => rw [hr] at this; simp [exceptIsOk] at this
    · intro h
      simp only [heartbeatPayloadOk, Bool.and_eq_true] at h
      have := ht_do_update_ok s data h.1 h.2
      rw [← AqaraHTSensor.do_heartbeat] at this
      cases hr : AqaraHTSensor.do_heartbeat s data with
      | ok s1 => simp [Device.do_heartbeat, hr, exceptIsOk]
      | error e => rw [hr] at this; simp [exceptIsOk] at this
  | contact s =>
    constructor
    · intro h
      simp [Device.do_update, exceptIsOk]
    · intro h
      simp only [heartbeatPayloadOk] at h
      have := contact_do_heartbeat_ok s data h
      cases hr : AqaraContactSensor.do_heartbeat s data with
      | ok s1 => simp [Device.do_heartbeat, hr, exceptIsOk]
      | error e => rw [hr] at this; simp [exceptIsOk] at this
  | motion s =>
    constructor
    · intro h
      simp [Device.do_update, exceptIsOk]
    · intro h
      simp only [heartbeatPayloadOk] at h
      have := motion_do_heartbeat_ok s data h
      cases hr : AqaraMotionSensor.do_heartbeat s data with
      | ok s1 => simp [Device.do_heartbeat, hr, exceptIsOk]
      | error e => rw [hr] at this; simp [exceptIsOk] at this
  | switch s =>
    constructor
    · intro h
      simp only [updatePayloadOk] at h
      have := switch_do_update_ok s data h
      cases hr : AqaraSwitchSensor.do_update s data with
      | ok s1 => simp [Device.do_update, hr, exceptIsOk]
      | error e => rw [hr] at this; simp [exceptIsOk] at this
    · intro h
      simp only [heartbeatPayloadOk] at h
      have := switch_do_heartbeat_ok s data h
      cases hr : AqaraSwitchSensor.do_heartbeat s data with
      | ok s1 => simp [Device.do_heartbeat, hr, exceptIsOk]
      | error e => rw [hr] at this; simp [exceptIsOk] at this

/-- Witness for C2's amended theorem at a concrete switch device and the
payload mapping status to "click". -/
theorem variant_hooks_ok_witness :
    exceptIsOk (Device.do_update switchDev [("status", "click")]) = true :=
  (variant_hooks_ok_on_wellformed_payloads switchDev [("status", "click")]).1 (by decide)

/-- C3 (code evaluation at the failing input): the claim says a switch
update with status "click" stores the click action code (true), and that an
unrecognised status such as "bogus" is tolerated with only a warning
(false): the warning path evaluates `'invalid status: ...' % status`, and
applying `%` to a format string without a `%`-conversion raises
`TypeError`, which escapes `do_update`. -/
theorem switch_update_click_hits_bogus_raises (s : SwitchState) :
    AqaraSwitchSensor.do_update s [("status", "click")] =
      .ok ⟨some AQARA_SWITCH_ACTION_CLICK, s.voltage⟩ ∧
    AqaraSwitchSensor.do_update s [("status", "bogus")] = .error .typeError :=
  ⟨rfl, rfl⟩

/-- C4: for every model that is none of the four recognised identifiers
and every sid, `create_device` fails with the unsupported-device-type
error (a `RuntimeError` whose message carries the offending model and the
sid) and returns no device. -/
theorem create_device_unknown_model_fails (model sid : String)
    (h1 : model ≠ AQARA_DEVICE_HT) (h2 : model ≠ AQARA_DEVICE_MOTION)
    (h3 : model ≠ AQARA_DEVICE_MAGNET) (h4 : model ≠ AQARA_DEVICE_SWITCH) :
    create_device model sid =
      .error (.runtimeError ("Unsupported device type: " ++ model ++ " [" ++ sid ++ "]")) := by
  simp [create_device, h1, h2, h3, h4]

/-- Witness for C4 at the concrete call `create_device "unknown" "sid1"`. -/
theorem create_device_unknown_model_fails_witness :
    create_device "unknown" "sid1" =
      .error (.runtimeError ("Unsupported device type: " ++ "unknown" ++ " [" ++ "sid1" ++ "]")) :=
  create_device_unknown_model_fails "unknown" "sid1"
    (by decide) (by decide) (by decide) (by decide)

/-- C5: for the motion variant, any update with a present status sets
`triggered` to whether the status equals "motion", and any update without a
status resets `triggered` to false; in particular an update with status
"motion" followed by an empty update leaves `triggered` false. -/
theorem motion_update_status_controls_triggered (s : MotionState) (data : Data) :
    AqaraMotionSensor.do_update s data =
      (match data.lookup "status" with
       | some status => ⟨status == "motion", s.voltage⟩
       | none => ⟨false, s.voltage⟩) ∧
    (AqaraMotionSensor.do_update
      (AqaraMotionSensor.do_update s [("status", "motion")]) []).triggered = false := by
  constructor
  · cases h : data.lookup "status" with
    | none => simp only [AqaraMotionSensor.do_update, h]
    | some status => simp only [AqaraMotionSensor.do_update, h]
  · rfl

/-- C6: for the contact variant, any update with a present status sets
`triggered` to whether the status equals "open", and an update without a
status leaves the whole state unchanged; in particular an update with
status "open" followed by an empty update leaves `triggered` true. -/
theorem contact_update_absent_status_is_noop (s : ContactState) (data : Data) :
    AqaraContactSensor.do_update s data =
      (match data.lookup "status" with
       | some status => ⟨status == "open", s.voltage⟩
       | none => s) ∧
    (AqaraContactSensor.do_update
      (AqaraContactSensor.do_update s [("status", "open")]) []).triggered = true := by
  constructor
  · cases h : data.lookup "status" with
    | none => simp only [AqaraContactSensor.do_update, h]
    | some status => simp only [AqaraContactSensor.do_update, h]
  · rfl

/-- C10: for the HT variant, the heartbeat hook is identical in behaviour
to the update hook: on every starting state and payload the two produce
the same result, both at the variant level and through the device
dispatch. -/
theorem ht_heartbeat_equals_update (b : AqaraBaseDevice) (s : HTState) (data : Data) :
    AqaraHTSensor.do_heartbeat s data = AqaraHTSensor.do_update s data ∧
    Device.do_heartbeat ⟨b, .ht s⟩ data = Device.do_update ⟨b, .ht s⟩ data :=
  ⟨rfl, rfl⟩

/-- C7 counterexample: the claim says each stored value equals the raw
integer divided by 100 and rounded to one decimal place; at raw value "15"
the program stores the double nearest 0.1 (the double quotient `15 / 100`
lies just below 0.15, so Python's float `round` rounds down), which differs
both from the exact one-decimal rounding of `15 / 100` (0.2, half to even)
and from the double nearest that value (the float literal 0.2). -/
theorem ht_update_fifteen_stores_tenth :
    AqaraHTSensor.do_update ⟨0, 0⟩ [("temperature", "15")] =
      .ok ⟨f64Nearest (Rat.divInt 1 10), 0⟩ ∧
    f64Nearest (Rat.divInt 1 10) ≠ pyRound1 (Rat.divInt 15 100) ∧
    f64Nearest (Rat.divInt 1 10) ≠ f64Nearest (pyRound1 (Rat.divInt 15 100)) :=
  ⟨rfl, by decide, by decide⟩

/-- C7 amended: for the HT variant, whenever `do_update` succeeds, each of
the temperature and humidity fields present in the payload is stored as the
float computation the source performs — the double quotient of the raw
integer by 100 (`pyTrueDiv`), rounded at one decimal place by Python's
float `round` (`pyFloatRound1`).  This agrees with exact one-decimal
rounding on the spec's examples: temperature "2350" and humidity "4567"
yield 23.5 and the double nearest 45.7, the values Python's `==` compares
equal to the literals 23.5 and 45.7 — but not for every raw value (see the
counterexample at "15"). -/
theorem ht_update_stores_float_rounded (s : HTState) (data : Data) :
    (∀ s1, AqaraHTSensor.do_update s data = .ok s1 →
      (∀ v n, data.lookup "temperature" = some v → pyInt v = .ok n →
        s1.temperature = pyFloatRound1 (pyTrueDiv n 100)) ∧
      (∀ v n, data.lookup "humidity" = some v → pyInt v = .ok n →
        s1.humidity = pyFloatRound1 (pyTrueDiv n 100))) ∧
    AqaraHTSensor.do_update s [("temperature", "2350"), ("humidity", "4567")] =
      .ok ⟨47 / 2, f64Nearest (457 / 10)⟩ := by
  constructor
  · intro s1 hok
    constructor
    · intro v n hv hn
      simp only [AqaraHTSensor.do_update, hv, AqaraHTSensor.parse_value, hn] at hok
      cases hh : data.lookup "humidity" with
      | none =>
        simp only [hh] at hok
        injection hok with h1
        rw [← h1]
      | some w =>
        simp only [hh] at hok
        cases hpw : pyInt w with
        | ok m =>
          simp only [AqaraHTSensor.parse_value, hpw] at hok
          injection hok with h1
          rw [← h1]
        | error e =>
          simp only [AqaraHTSensor.parse_value, hpw] at hok
          exact Except.noConfusion hok
    · intro v n hv hn
      cases ht : data.lookup "temperature" with
      | none =>
        simp only [AqaraHTSensor.do_update, ht, hv, AqaraHTSensor.parse_value, hn] at hok
        injection hok with h1
        rw [← h1]
      | some w =>
        cases hpw : pyInt w with
        | ok m =>
          simp only [AqaraHTSensor.do_update, ht, AqaraHTSensor.parse_value, hpw,
            hv, hn] at hok
          injection hok with h1
          rw [← h1]
        | error e =>
          simp only [AqaraHTSensor.do_update, ht, AqaraHTSensor.parse_value, hpw] at hok
          exact Except.noConfusion hok
  · have hL : AqaraHTSensor.do_update s [("temperature", "2350"), ("humidity", "4567")] =
        .ok ⟨Rat.divInt 47 2, f64Nearest (Rat.divInt 457 10)⟩ := rfl
    rw [hL]
    norm_num [Rat.divInt_eq_div]

/-- Witness for C7's amended theorem at the concrete payload with
temperature "2350" and humidity "4567". -/
theorem ht_update_stores_float_rounded_witness :
    ((⟨47 / 2, f64Nearest (457 / 10)⟩ : HTState)).temperature =
      pyFloatRound1 (pyTrueDiv 2350 100) :=
  ((ht_update_stores_float_rounded ⟨0, 0⟩
        [("temperature", "2350"), ("humidity", "4567")]).1
      ⟨47 / 2, f64Nearest (457 / 10)⟩
      (ht_update_stores_float_rounded ⟨0, 0⟩
        [("temperature", "2350"), ("humidity", "4567")]).2).1
    "2350" 2350 rfl rfl

/-- C8: for every device and payload, a successful `on_update` or
`on_heartbeat` invokes exactly the callbacks in the device's single
optional callback slot — one invocation when a callback is registered,
none otherwise, regardless of whether any state field changed. -/
theorem on_event_invokes_callback_exactly_once (d : Device) (data : Data) :
    (∀ r, d.on_update data = .ok r → r.2 = d.base.update_callback.toList) ∧
    (∀ r, d.on_heartbeat data = .ok r → r.2 = d.base.update_callback.toList) :=
  ⟨fun r h => Device.on_update_trace d data r h,
   fun r h => Device.on_heartbeat_trace d data r h⟩

/-- Witness for C8 at a concrete contact device with callback 7 and an
empty payload. -/
theorem on_event_invokes_callback_exactly_once_witness :
    ((contactDev, [7]) : Device × List Callback).2 = contactDev.base.update_callback.toList :=
  (on_event_invokes_callback_exactly_once contactDev []).1 (contactDev, [7]) rfl

/-- C9: registering an update callback replaces the previous one: after
registering cb1 and then cb2, a successful `on_update` or `on_heartbeat`
invokes exactly cb2, and never cb1 when the two differ. -/
theorem set_update_callback_replaces_previous (d : Device) (cb1 cb2 : Callback) (data : Data) :
    (∀ r, ((d.set_update_callback cb1).set_update_callback cb2).on_update data = .ok r →
      r.2 = [cb2] ∧ (cb1 ≠ cb2 → cb1 ∉ r.2)) ∧
    (∀ r, ((d.set_update_callback cb1).set_update_callback cb2).on_heartbeat data = .ok r →
      r.2 = [cb2] ∧ (cb1 ≠ cb2 → cb1 ∉ r.2)) := by
  constructor
  · intro r h
    have htr := Device.on_update_trace _ data r h
    have hcb : ((d.set_update_callback cb1).set_update_callback cb2).base.update_callback =
        some cb2 := rfl
    rw [hcb] at htr
    refine ⟨htr, ?_⟩
    intro hne
    rw [htr]
    exact fun hmem => hne (List.mem_singleton.mp hmem)
  · intro r h
    have htr := Device.on_heartbeat_trace _ data r h
    have hcb : ((d.set_update_callback cb1).set_update_callback cb2).base.update_callback =
        some cb2 := rfl
    rw [hcb] at htr
    refine ⟨htr, ?_⟩
    intro hne
    rw [htr]
    exact fun hmem => hne (List.mem_singleton.mp hmem)

/-- Witness for C9 at a concrete motion device with callbacks 1 then 2 and
an empty payload. -/
theorem set_update_callback_replaces_previous_witness :
    (1 : Callback) ∉
      (((motionDev.set_update_callback 1).set_update_callback 2,
        ([2] : List Callback)) : Device × List Callback).2 :=
  ((set_update_callback_replaces_previous motionDev 1 2 []).1
    ((motionDev.set_update_callback 1).set_update_callback 2, [2]) rfl).2 (by decide)
